import Mathlib

/-!
Verification development for the license-validation / credit-metering /
config-sharing HTTP handlers of this repository.

The JavaScript handlers are shallowly embedded as pure Lean functions:
* the Supabase store is passed explicitly (association lists of rows) and
  every fallible store operation takes an explicit success flag standing for
  "the external call did not error";
* machine timestamps (`new Date().toISOString()`) and request metadata
  (ip, user agent) are passed in as opaque strings;
* the JWT signing primitive is modelled symbolically: a signed token is its
  payload together with the signing secret, and verification succeeds exactly
  when the verifier's secret matches and the token is unexpired.
-/

/-! Section: Credit meter (credits helper: `CREDIT_COSTS`, `trackApiUsage`,
`logActivity`, `refillCredits`) -/

/-- The static `CREDIT_COSTS` table mapping endpoint name to cost. -/
def CREDIT_COSTS : List (String × Int) :=
  [("validate", 1),
   ("supabase", 20),
   ("supabase/recent", 10),
   ("twitter", 5),
   ("community", 5),
   ("sheets", 20)]

/-- Evaluation of `CREDIT_COSTS[endpoint] || 1`: cost of an endpoint, defaulting to 1 for
unknown endpoint names (the table holds no zero entries, so `||` and a
default-on-missing lookup agree). -/
def creditCost (endpoint : String) : Int :=
  (CREDIT_COSTS.lookup endpoint).getD 1

/-- One `device_bindings` row as touched by the credits helper: the columns it
selects (`credits_remaining`, `total_credits_used`) and the columns it updates.
Nullable columns are `Option`. -/
structure DeviceBinding where
  creditsRemaining : Option Int
  totalCreditsUsed : Option Int
  lastSeen : Option String
  lastIp : Option String
  lastUserAgent : Option String
  lastEndpoint : Option String
  lastCreditUsage : Option String
  deriving Repr, DecidableEq

/-- One `activity_logs` row as inserted by `logActivity`. -/
structure ActivityLogEntry where
  license_key : String
  device_id : String
  endpoint : String
  credits_used : Int
  ip : Option String
  user_agent : Option String
  status_code : Int
  success : Bool
  error_reason : Option String
  deriving Repr, DecidableEq

/-- The failure cases of `trackApiUsage`, tagging which error string it
returned. -/
inductive CreditFailure
  | bindingNotFound
  | insufficientCredits (needed : Int) (available : Int)
  | updateFailed
  deriving Repr, DecidableEq

/-- The result object of `trackApiUsage`. -/
structure TrackResult where
  success : Bool
  creditsRemaining : Option Int
  creditsUsed : Option Int
  totalUsed : Option Int
  failure : Option CreditFailure
  deriving Repr, DecidableEq

/-- Per-call environment of `trackApiUsage`: request metadata, the clock, and
the outcome flags of the three external store operations (binding fetch,
binding update, activity-log insert). -/
structure ChargeCtx where
  ip : Option String
  userAgent : Option String
  now : String
  statusCode : Int
  errorReason : Option String
  fetchOk : Bool
  updateOk : Bool
  logOk : Bool
  deriving Repr, DecidableEq

/-- Function `logActivity`: append one row to `activity_logs`; an insert failure is
swallowed (the log is simply left unchanged). -/
def logActivity (entry : ActivityLogEntry) (logOk : Bool)
    (log : List ActivityLogEntry) : List ActivityLogEntry :=
  if logOk then log ++ [entry] else log

/-- Function `trackApiUsage(licenseKey, deviceId, endpoint, req, options)`.
`binding?` is the `device_bindings` row matching `(licenseKey, deviceId)`
(`none` when `.single()` finds no row); `ctx.fetchOk = false` models a fetch
error, which the source folds into the same "Device binding not found" return.
Returns the result object, the row afterwards, and the activity log
afterwards. -/
def trackApiUsage (licenseKey deviceId : String) (binding? : Option DeviceBinding)
    (endpoint : String) (success : Bool) (ctx : ChargeCtx)
    (log : List ActivityLogEntry) :
    TrackResult × Option DeviceBinding × List ActivityLogEntry :=
  let creditsToDeduct : Int := if success then creditCost endpoint else 0
  match binding?, ctx.fetchOk with
  | some b, true =>
    let creditsRemaining := b.creditsRemaining.getD 0
    if success ∧ creditsRemaining < creditsToDeduct then
      ({ success := false
         creditsRemaining := some creditsRemaining
         creditsUsed := none
         totalUsed := none
         failure := some (.insufficientCredits creditsToDeduct creditsRemaining) },
       some b, log)
    else
      let b1 := { b with
        lastSeen := some ctx.now
        lastIp := ctx.ip
        lastUserAgent := ctx.userAgent
        lastEndpoint := some endpoint }
      let b2 := if success then
          { b1 with
            creditsRemaining := some (creditsRemaining - creditsToDeduct)
            totalCreditsUsed := some (b.totalCreditsUsed.getD 0 + creditsToDeduct)
            lastCreditUsage := some ctx.now }
        else b1
      if ctx.updateOk then
        let entry : ActivityLogEntry :=
          { license_key := licenseKey
            device_id := deviceId
            endpoint := endpoint
            credits_used := creditsToDeduct
            ip := ctx.ip
            user_agent := ctx.userAgent
            status_code := ctx.statusCode
            success := success
            error_reason := ctx.errorReason }
        ({ success := true
           creditsRemaining :=
             some (if success then creditsRemaining - creditsToDeduct
                   else creditsRemaining)
           creditsUsed := some creditsToDeduct
           totalUsed := if success then some (b.totalCreditsUsed.getD 0 + creditsToDeduct)
                        else b.totalCreditsUsed
           failure := none },
         some b2, logActivity entry ctx.logOk log)
      else
        ({ success := false
           creditsRemaining := none
           creditsUsed := none
           totalUsed := none
           failure := some .updateFailed },
         some b, log)
  | _, _ =>
    ({ success := false
       creditsRemaining := none
       creditsUsed := none
       totalUsed := none
       failure := some .bindingNotFound },
     binding?, log)

/-- One call in a sequence of charges: the arguments of one `trackApiUsage`
invocation for a fixed (licenseKey, deviceId). -/
structure ChargeCall where
  endpoint : String
  success : Bool
  ctx : ChargeCtx
  deriving Repr, DecidableEq

/-- Run a sequence of `trackApiUsage` calls against one binding, threading the
row and the activity log, collecting the per-call results. -/
def runCharges (licenseKey deviceId : String) (binding? : Option DeviceBinding)
    (log : List ActivityLogEntry) :
    List ChargeCall → Option DeviceBinding × List ActivityLogEntry × List TrackResult
  | [] => (binding?, log, [])
  | c :: cs =>
    let step := trackApiUsage licenseKey deviceId binding? c.endpoint c.success c.ctx log
    let rest := runCharges licenseKey deviceId step.2.1 step.2.2 cs
    (rest.1, rest.2.1, step.1 :: rest.2.2)

/-- Value of `credits_remaining ?? 0` of a possibly-absent row. -/
def remN (binding? : Option DeviceBinding) : Int :=
  match binding? with
  | none => 0
  | some b => b.creditsRemaining.getD 0

/-- Value of `total_credits_used || 0` of a possibly-absent row. -/
def totN (binding? : Option DeviceBinding) : Int :=
  match binding? with
  | none => 0
  | some b => b.totalCreditsUsed.getD 0

/-- Sum of the costs of the charges that were actually deducted, read off the
call/result pairs: a deduction happened exactly when the call was marked
`success = true` and `trackApiUsage` returned a success result. -/
def deductedSum : List ChargeCall → List TrackResult → Int
  | c :: cs, r :: rs =>
    (if r.success ∧ c.success then creditCost c.endpoint else 0) + deductedSum cs rs
  | _, _ => 0

/-- Result object of `refillCredits`. -/
structure RefillResult where
  success : Bool
  previousBalance : Option Int
  newBalance : Option Int
  failure : Option CreditFailure
  deriving Repr, DecidableEq

/-- Function `refillCredits(licenseKey, deviceId, amount)`: negative `amount` sets the
balance to `|amount|`, otherwise adds `amount` to `credits_remaining ?? 0`.
`binding?` is the matching row, `updateOk` the outcome of the store update. -/
def refillCredits (binding? : Option DeviceBinding) (amount : Int)
    (updateOk : Bool) : RefillResult × Option DeviceBinding :=
  match binding? with
  | none =>
    ({ success := false, previousBalance := none, newBalance := none
       failure := some .bindingNotFound }, none)
  | some current =>
    let newBalance : Int :=
      if amount < 0 then |amount|
      else current.creditsRemaining.getD 0 + amount
    if updateOk then
      ({ success := true
         previousBalance := some (current.creditsRemaining.getD 0)
         newBalance := some newBalance
         failure := none },
       some { current with creditsRemaining := some newBalance })
    else
      ({ success := false, previousBalance := none, newBalance := none
         failure := some .updateFailed }, some current)

example :
    (trackApiUsage "K" "D"
      (some { creditsRemaining := some 3, totalCreditsUsed := some 7,
              lastSeen := none, lastIp := none, lastUserAgent := none,
              lastEndpoint := none, lastCreditUsage := none })
      "community" true
      { ip := none, userAgent := none, now := "t", statusCode := 200,
        errorReason := none, fetchOk := true, updateOk := true, logOk := true }
      []).1.failure = some (.insufficientCredits 5 3) := by decide

example :
    (trackApiUsage "K" "D"
      (some { creditsRemaining := some 5, totalCreditsUsed := none,
              lastSeen := none, lastIp := none, lastUserAgent := none,
              lastEndpoint := none, lastCreditUsage := none })
      "community" true
      { ip := none, userAgent := none, now := "t", statusCode := 200,
        errorReason := none, fetchOk := true, updateOk := true, logOk := true }
      []).1.creditsRemaining = some 0 := by decide

/-! Section: Token service (`generateToken`, jose `jwtVerify`, `verifyToken`) -/

/-- A JWT payload as minted or inspected by the handlers. Both the camel-case
`deviceId` field (written by `generateToken`) and the snake-case `device_id`
field (read by the config-share handler) are modelled, each `none` when the
payload does not carry it. -/
structure JwtPayload where
  licenseKey : Option String
  deviceId : Option String
  device_id : Option String
  purpose : Option String
  iat : Nat
  exp : Nat
  deriving Repr, DecidableEq

/-- A signed JWT, modelled symbolically: the payload plus the secret it was
signed with (standing for the HS256 signature). -/
structure Jwt where
  payload : JwtPayload
  secret : String
  deriving Repr, DecidableEq

/-- Function `generateToken(licenseKey, deviceId)`: payload
`{licenseKey: key.substring(0,8) + '...', deviceId, purpose: 'honed-license'}`,
issued at `now`, expiring 5 minutes (300 s) later, signed with `secret`. -/
def generateToken (licenseKey deviceId : String) (secret : String) (now : Nat) : Jwt :=
  { payload :=
      { licenseKey := some (licenseKey.take 8 ++ "...")
        deviceId := some deviceId
        device_id := none
        purpose := some "honed-license"
        iat := now
        exp := now + 300 }
    secret := secret }

/-- jose `jwtVerify(token, secretKey)` at time `now`: succeeds with the payload
iff the signature was made with the verifier's secret and the token is not
expired. -/
def jwtVerify (tok : Jwt) (secret : String) (now : Nat) : Option JwtPayload :=
  if tok.secret = secret ∧ now < tok.payload.exp then some tok.payload else none

/-- Function `verifyToken(token)` as defined in the validate/community/sheets handlers:
jose verification followed by the `purpose === 'honed-license'` check;
`none` models the `null` return. -/
def verifyToken (tok : Jwt) (secret : String) (now : Nat) : Option JwtPayload :=
  match jwtVerify tok secret now with
  | none => none
  | some payload =>
    if payload.purpose = some "honed-license" then some payload else none

/-! Section: License validation handlers (validate handler, both variants) -/

/-- Validation outcome tags (`reason` strings of the validate response). -/
inductive Reason
  | VALID
  | INVALID
  | REVOKED
  | DEVICE_MISMATCH
  | MAINTENANCE
  | INVALID_REQUEST
  | ERROR
  deriving Repr, DecidableEq

/-- The validate handler's JSON response: HTTP status, `valid`, `reason`
(absent on the bare 405 body), echoed `deviceId`, minted `token`, the
`newDevice` flag (`false` models the field being absent), and the optional
`updateNotification` message. -/
structure ValidateResp where
  status : Nat
  valid : Bool
  reason : Option Reason
  deviceId : Option String
  token : Option Jwt
  newDevice : Bool
  updateNotification : Option String
  deriving Repr, DecidableEq

/-- JS falsiness of an optional string query parameter: absent or empty. -/
def strFalsy (s? : Option String) : Bool :=
  match s? with
  | none => true
  | some s => s = ""

/-- The shared device-binding step of both validate variants: read the
binding for `key` (`fetchErr` = the read errored), then match / mismatch /
insert (`insertErr` = the insert errored; store errors surface as 500 ERROR).
`bindings` associates each license key with its bound device id. `notif` is
the active update notification attached (by the second variant) to VALID
responses only. -/
def bindingStep (key dev : String) (bindings : List (String × String))
    (fetchErr insertErr : Bool) (secret : String) (now : Nat)
    (notif : Option String) : ValidateResp × List (String × String) :=
  if fetchErr then
    ({ status := 500, valid := false, reason := some .ERROR, deviceId := none,
       token := none, newDevice := false, updateNotification := none }, bindings)
  else
    match bindings.lookup key with
    | some bound =>
      if bound = dev then
        ({ status := 200, valid := true, reason := some .VALID,
           deviceId := some dev,
           token := some (generateToken key dev secret now),
           newDevice := false, updateNotification := notif }, bindings)
      else
        ({ status := 200, valid := false, reason := some .DEVICE_MISMATCH,
           deviceId := none, token := none, newDevice := false,
           updateNotification := none }, bindings)
    | none =>
      if insertErr then
        ({ status := 500, valid := false, reason := some .ERROR, deviceId := none,
           token := none, newDevice := false, updateNotification := none }, bindings)
      else
        ({ status := 200, valid := true, reason := some .VALID,
           deviceId := some dev,
           token := some (generateToken key dev secret now),
           newDevice := true, updateNotification := notif },
         bindings ++ [(key, dev)])

/-- Environment of the first validate variant: kill switch plus the two
environment-variable lists `REVOKED_KEYS` and `LICENSE_KEYS`. -/
structure Env1 where
  masterKillSwitch : Bool
  revokedKeys : List String
  validLicenseKeys : List String
  deriving Repr, DecidableEq

/-- First validate variant (env-list allowlist): method check, kill switch,
parameter check, then `revokedKeys.includes(key)` BEFORE the
`VALID_LICENSE_KEYS.includes(key)` allowlist check, then the binding step. -/
def validate1 (env : Env1) (method : String) (key deviceId : Option String)
    (bindings : List (String × String)) (fetchErr insertErr : Bool)
    (secret : String) (now : Nat) : ValidateResp × List (String × String) :=
  if method ≠ "GET" then
    ({ status := 405, valid := false, reason := none, deviceId := none,
       token := none, newDevice := false, updateNotification := none }, bindings)
  else if env.masterKillSwitch then
    ({ status := 200, valid := false, reason := some .MAINTENANCE, deviceId := none,
       token := none, newDevice := false, updateNotification := none }, bindings)
  else if strFalsy key ∨ strFalsy deviceId then
    ({ status := 400, valid := false, reason := some .INVALID_REQUEST,
       deviceId := none, token := none, newDevice := false,
       updateNotification := none }, bindings)
  else
    let k := key.getD ""
    let d := deviceId.getD ""
    if env.revokedKeys.contains k then
      ({ status := 200, valid := false, reason := some .REVOKED, deviceId := none,
         token := none, newDevice := false, updateNotification := none }, bindings)
    else if ¬ env.validLicenseKeys.contains k then
      ({ status := 200, valid := false, reason := some .INVALID, deviceId := none,
         token := none, newDevice := false, updateNotification := none }, bindings)
    else
      bindingStep k d bindings fetchErr insertErr secret now none

/-- One row of the `license_keys` table used by the second validate variant. -/
structure LicenseRow where
  key : String
  revoked : Bool
  deriving Repr, DecidableEq

/-- Environment of the second validate variant: kill switch and the
`license_keys` table. -/
structure Env2 where
  masterKillSwitch : Bool
  license_keys : List LicenseRow
  deriving Repr, DecidableEq

/-- Second validate variant (Supabase `license_keys` table): method check,
kill switch, parameter check, then the row-existence check (INVALID) BEFORE
the `revoked` flag check (REVOKED), then the binding step, with the active
update notification `notif` attached to VALID responses.
`licenseFetchErr` models an errored `license_keys` read (500 ERROR). -/
def validate2 (env : Env2) (method : String) (key deviceId : Option String)
    (bindings : List (String × String))
    (licenseFetchErr fetchErr insertErr : Bool) (notif : Option String)
    (secret : String) (now : Nat) : ValidateResp × List (String × String) :=
  if method ≠ "GET" then
    ({ status := 405, valid := false, reason := none, deviceId := none,
       token := none, newDevice := false, updateNotification := none }, bindings)
  else if env.masterKillSwitch then
    ({ status := 200, valid := false, reason := some .MAINTENANCE, deviceId := none,
       token := none, newDevice := false, updateNotification := none }, bindings)
  else if strFalsy key ∨ strFalsy deviceId then
    ({ status := 400, valid := false, reason := some .INVALID_REQUEST,
       deviceId := none, token := none, newDevice := false,
       updateNotification := none }, bindings)
  else
    let k := key.getD ""
    let d := deviceId.getD ""
    if licenseFetchErr then
      ({ status := 500, valid := false, reason := some .ERROR, deviceId := none,
         token := none, newDevice := false, updateNotification := none }, bindings)
    else
      match env.license_keys.find? (fun row => row.key = k) with
      | none =>
        ({ status := 200, valid := false, reason := some .INVALID, deviceId := none,
           token := none, newDevice := false, updateNotification := none }, bindings)
      | some row =>
        if row.revoked then
          ({ status := 200, valid := false, reason := some .REVOKED, deviceId := none,
             token := none, newDevice := false, updateNotification := none }, bindings)
        else
          bindingStep k d bindings fetchErr insertErr secret now notif

/-! Section: Config-share surface (combined config-share handler) -/

/-- The substructures of `configData.settings` the upload handler counts. -/
structure ConfigSettings where
  adminAlertsList : Option (List String)
  trackedTweetsList : Option (List String)
  adminBlacklistList : Option (List String)
  deriving Repr, DecidableEq

/-- An uploaded configuration blob. `stringifyLength` is
`JSON.stringify(configData).length`, carried as an attribute of the opaque
blob (JSON serialization itself is external). -/
structure ConfigData where
  settings : Option ConfigSettings
  stringifyLength : Nat
  deriving Repr, DecidableEq

/-- One `shared_configs` row. -/
structure SharedConfig where
  id : Nat
  device_id : String
  display_name : Option String
  description : Option String
  is_public : Bool
  config_data : ConfigData
  admins_count : Int
  tweets_count : Int
  blacklist_count : Int
  config_size_bytes : Nat
  view_count : Option Int
  copy_count : Option Int
  last_copied_at : Option String
  deriving Repr, DecidableEq

/-- The authentication prelude of the combined config-share handler: require
an Authorization header, jose-verify the token, require
`purpose === 'honed-license'`, then take `decoded?.device_id` and reject the
request when that is falsy. `.ok d` carries the owner identity used by every
sub-handler; `.error s` is the HTTP status of the rejection. -/
def configShareAuth (authorization : Option Jwt) (secret : String) (now : Nat) :
    Except Nat String :=
  match authorization with
  | none => .error 401
  | some tok =>
    match jwtVerify tok secret now with
    | none => .error 401
    | some payload =>
      if payload.purpose ≠ some "honed-license" then .error 401
      else
        match payload.device_id with
        | none => .error 401
        | some d => if d = "" then .error 401 else .ok d

/-- Response of the preview sub-handler. -/
structure PreviewResp where
  status : Nat
  config : Option SharedConfig
  deriving Repr, DecidableEq

/-- Response of the copy sub-handler. -/
structure CopyResp where
  status : Nat
  configData : Option ConfigData
  deriving Repr, DecidableEq

/-- Response of the delete sub-handler. -/
structure DeleteResp where
  status : Nat
  deriving Repr, DecidableEq

/-- Response of the visibility sub-handler. -/
structure VisibilityResp where
  status : Nat
  isPublic : Option Bool
  deriving Repr, DecidableEq

/-- Response of the upload sub-handler. -/
structure UploadResp where
  status : Nat
  configId : Option Nat
  deriving Repr, DecidableEq

/-- Body of an upload request. -/
structure UploadBody where
  displayName : Option String
  description : Option String
  isPublic : Option Bool
  configData : Option ConfigData
  deriving Repr, DecidableEq

/-- Sub-handler `handlePreview`: fetch by id (`fetchOk = false` models an errored read,
folded with "no row" into 404), enforce owner-or-public, then increment
`view_count` (that update's outcome `updateOk` is not even checked by the
source — the 200 response is sent regardless). -/
def handlePreview (deviceId : String) (configId? : Option Nat)
    (store : List SharedConfig) (fetchOk updateOk : Bool) :
    PreviewResp × List SharedConfig :=
  match configId? with
  | none => ({ status := 400, config := none }, store)
  | some cid =>
    if ¬ fetchOk then ({ status := 404, config := none }, store)
    else
      match store.find? (fun c => c.id = cid) with
      | none => ({ status := 404, config := none }, store)
      | some data =>
        if data.device_id ≠ deviceId ∧ ¬ data.is_public then
          ({ status := 403, config := none }, store)
        else
          let store2 :=
            if updateOk then
              store.map (fun c =>
                if c.id = cid then
                  { c with view_count := some (data.view_count.getD 0 + 1) }
                else c)
            else store
          ({ status := 200, config := some data }, store2)

/-- Sub-handler `handleCopy`: fetch by id, reject a private config of another owner with
403, then increment `copy_count` and stamp `last_copied_at` (update outcome
unchecked), returning the stored blob. -/
def handleCopy (deviceId : String) (configId? : Option Nat)
    (store : List SharedConfig) (fetchOk updateOk : Bool) (now : String) :
    CopyResp × List SharedConfig :=
  match configId? with
  | none => ({ status := 400, configData := none }, store)
  | some cid =>
    if ¬ fetchOk then ({ status := 404, configData := none }, store)
    else
      match store.find? (fun c => c.id = cid) with
      | none => ({ status := 404, configData := none }, store)
      | some data =>
        if ¬ data.is_public ∧ data.device_id ≠ deviceId then
          ({ status := 403, configData := none }, store)
        else
          let store2 :=
            if updateOk then
              store.map (fun c =>
                if c.id = cid then
                  { c with copy_count := some (data.copy_count.getD 0 + 1),
                           last_copied_at := some now }
                else c)
            else store
          ({ status := 200, configData := some data.config_data }, store2)

/-- Sub-handler `handleDelete`: delete rows matching both `id` and the requester's
`device_id`; when nothing matched (absent, or owned by someone else) the
`.single()` on the returned rows errors and a 404 "Config not found or access
denied" is sent. `deleteOk = false` models an errored delete. -/
def handleDelete (deviceId : String) (configId? : Option Nat)
    (store : List SharedConfig) (deleteOk : Bool) :
    DeleteResp × List SharedConfig :=
  match configId? with
  | none => ({ status := 400 }, store)
  | some cid =>
    if ¬ deleteOk then ({ status := 404 }, store)
    else
      match store.find? (fun c => c.id = cid && c.device_id = deviceId) with
      | none => ({ status := 404 }, store)
      | some _ =>
        ({ status := 200 },
         store.filter (fun c => ¬ (c.id = cid ∧ c.device_id = deviceId)))

/-- Body of a visibility request; `isPublic = none` models both an absent
field and a non-boolean value (the source checks `typeof isPublic`). -/
structure VisibilityBody where
  configId : Option Nat
  isPublic : Option Bool
  deriving Repr, DecidableEq

/-- Sub-handler `handleVisibility`: update `is_public` on the row matching both `id` and
the requester's `device_id`; no matched row (absent or not owned) is a 404.
`updateOk = false` models an errored update. -/
def handleVisibility (deviceId : String) (body : VisibilityBody)
    (store : List SharedConfig) (updateOk : Bool) :
    VisibilityResp × List SharedConfig :=
  match body.configId, body.isPublic with
  | some cid, some pub =>
    if ¬ updateOk then ({ status := 404, isPublic := none }, store)
    else
      match store.find? (fun c => c.id = cid && c.device_id = deviceId) with
      | none => ({ status := 404, isPublic := none }, store)
      | some _ =>
        ({ status := 200, isPublic := some pub },
         store.map (fun c =>
           if c.id = cid ∧ c.device_id = deviceId then
             { c with is_public := pub }
           else c))
  | _, _ => ({ status := 400, isPublic := none }, store)

/-- Sub-handler `handleUpload`: require `configData`, derive the three counts and the
serialized size, reject a size over `5 * 1024 * 1024` with 400 BEFORE the
insert, then insert the new row (`insertOk = false` models an errored insert,
a 500 with no row added; `newId` is the id the store assigns). -/
def handleUpload (deviceId : String) (body : UploadBody)
    (store : List SharedConfig) (insertOk : Bool) (newId : Nat) :
    UploadResp × List SharedConfig :=
  match body.configData with
  | none => ({ status := 400, configId := none }, store)
  | some configData =>
    let adminsCount : Int :=
      ((configData.settings.bind (fun s => s.adminAlertsList)).getD []).length
    let tweetsCount : Int :=
      ((configData.settings.bind (fun s => s.trackedTweetsList)).getD []).length
    let blacklistCount : Int :=
      ((configData.settings.bind (fun s => s.adminBlacklistList)).getD []).length
    let configSizeBytes := configData.stringifyLength
    if configSizeBytes > 5 * 1024 * 1024 then
      ({ status := 400, configId := none }, store)
    else if insertOk then
      ({ status := 200, configId := some newId },
       store ++ [{ id := newId
                   device_id := deviceId
                   display_name := body.displayName
                   description := body.description
                   is_public := body.isPublic.getD false
                   config_data := configData
                   admins_count := adminsCount
                   tweets_count := tweetsCount
                   blacklist_count := blacklistCount
                   config_size_bytes := configSizeBytes
                   view_count := none
                   copy_count := none
                   last_copied_at := none }])
    else
      ({ status := 500, configId := none }, store)

/-! Section: Community proxy (community handler, credit-gated variant) -/

/-- Body of the community handler's 402 response. `message` carries the
`creditCheck.error` string, represented by its `CreditFailure` tag. -/
structure InsufficientBody where
  error : String
  message : Option CreditFailure
  creditsNeeded : Int
  deriving Repr, DecidableEq

/-- Outcome of the community handler up to its credit gate. `proceed` is the
point where the gate has passed and the handler goes on to the external
data-provider fetch (out of scope); it carries the identity the charge was
made against. -/
inductive CommunityOutcome
  | resp (status : Nat)
  | insufficient (status : Nat) (body : InsufficientBody)
  | proceed (licenseKey deviceId : String)
  deriving Repr, DecidableEq

/-- The credit-gated community handler through its credit gate: method check,
Bearer-token verification, then `trackApiUsage(payload.licenseKey,
payload.deviceId, 'community', req, {statusCode: 200, success: true})`; any
unsuccessful result is answered with a 402 whose body hardcodes
`creditsNeeded: 20`. `binding?` is the `device_bindings` row matching the
identity carried by the token's payload. -/
def communityHandler (method : String) (authHeader : Option Jwt)
    (secret : String) (now : Nat) (binding? : Option DeviceBinding)
    (ctx : ChargeCtx) (log : List ActivityLogEntry) :
    CommunityOutcome × Option DeviceBinding × List ActivityLogEntry :=
  if method = "OPTIONS" then (.resp 200, binding?, log)
  else if method ≠ "GET" then (.resp 405, binding?, log)
  else
    match authHeader with
    | none => (.resp 401, binding?, log)
    | some tok =>
      match verifyToken tok secret now with
      | none => (.resp 401, binding?, log)
      | some payload =>
        let lk := payload.licenseKey.getD ""
        let dev := payload.deviceId.getD ""
        let creditCheck := trackApiUsage lk dev binding? "community" true ctx log
        if ¬ creditCheck.1.success then
          (.insufficient 402 { error := "Insufficient credits"
                               message := creditCheck.1.failure
                               creditsNeeded := 20 },
           creditCheck.2.1, creditCheck.2.2)
        else
          (.proceed lk dev, creditCheck.2.1, creditCheck.2.2)

/-! Section: Helper lemmas -/

/-- Every entry of the cost table is positive and the default is 1, so every
endpoint cost is positive. -/
theorem creditCost_pos (e : String) : 0 < creditCost e := by
  unfold creditCost CREDIT_COSTS
  simp only [List.lookup]
  repeat' split
  all_goals simp_all

/-- After one `trackApiUsage` call, `total_credits_used` grew by exactly the
cost when a deduction was applied (successful result of a `success = true`
call) and is unchanged otherwise. -/
theorem trackApiUsage_totN (lk dev e : String) (s : Bool) (ctx : ChargeCtx)
    (b? : Option DeviceBinding) (log : List ActivityLogEntry) :
    totN (trackApiUsage lk dev b? e s ctx log).2.1
      = totN b? +
        (if (trackApiUsage lk dev b? e s ctx log).1.success ∧ s then creditCost e
         else 0) := by
  obtain ⟨ip, ua, now, sc, er, fo, uo, lo⟩ := ctx
  cases b? with
  | none => cases fo <;> simp [trackApiUsage, totN]
  | some b =>
    cases fo with
    | false => simp [trackApiUsage, totN]
    | true =>
      cases s with
      | false => cases uo <;> simp [trackApiUsage, totN]
      | true =>
        by_cases hlt : b.creditsRemaining.getD 0 < creditCost e
        · simp [trackApiUsage, totN, hlt]
        · cases uo <;> simp [trackApiUsage, totN, hlt]

/-- One `trackApiUsage` call keeps `credits_remaining` non-negative. -/
theorem trackApiUsage_remN (lk dev e : String) (s : Bool) (ctx : ChargeCtx)
    (b? : Option DeviceBinding) (log : List ActivityLogEntry)
    (h : 0 ≤ remN b?) : 0 ≤ remN (trackApiUsage lk dev b? e s ctx log).2.1 := by
  obtain ⟨ip, ua, now, sc, er, fo, uo, lo⟩ := ctx
  cases b? with
  | none => cases fo <;> simp [trackApiUsage, remN]
  | some b =>
    cases fo with
    | false => simpa [trackApiUsage, remN] using h
    | true =>
      cases s with
      | false => cases uo <;> simpa [trackApiUsage, remN] using h
      | true =>
        by_cases hlt : b.creditsRemaining.getD 0 < creditCost e
        · simpa [trackApiUsage, remN, hlt] using h
        · cases uo <;> simp [trackApiUsage, remN, hlt] at h ⊢ <;> omega

/-- A `success = true` charge against a balance below the cost returns the
insufficient-credits failure, with binding and log unchanged. -/
theorem trackApiUsage_insufficient (lk dev endpoint : String) (b : DeviceBinding)
    (ctx : ChargeCtx) (log : List ActivityLogEntry)
    (hf : ctx.fetchOk = true)
    (hlt : b.creditsRemaining.getD 0 < creditCost endpoint) :
    trackApiUsage lk dev (some b) endpoint true ctx log =
      ({ success := false
         creditsRemaining := some (b.creditsRemaining.getD 0)
         creditsUsed := none
         totalUsed := none
         failure := some (.insufficientCredits (creditCost endpoint)
                           (b.creditsRemaining.getD 0)) },
       some b, log) := by
  obtain ⟨ip, ua, now, sc, er, fo, uo, lo⟩ := ctx
  simp only at hf
  subst hf
  simp [trackApiUsage, hlt]

/-- C1: A `success = true` charge against a binding whose remaining balance is
below the endpoint's cost returns the INSUFFICIENT_CREDITS failure and leaves
the binding and the activity log completely unmodified; consequently, over any
sequence of charges, `credits_remaining` never becomes negative. -/
theorem charge_rejects_overdraft_and_balance_stays_nonneg :
    (∀ (lk dev endpoint : String) (b : DeviceBinding) (ctx : ChargeCtx)
       (log : List ActivityLogEntry),
       ctx.fetchOk = true →
       b.creditsRemaining.getD 0 < creditCost endpoint →
       trackApiUsage lk dev (some b) endpoint true ctx log =
         ({ success := false
            creditsRemaining := some (b.creditsRemaining.getD 0)
            creditsUsed := none
            totalUsed := none
            failure := some (.insufficientCredits (creditCost endpoint)
                              (b.creditsRemaining.getD 0)) },
          some b, log))
    ∧ (∀ (lk dev : String) (b? : Option DeviceBinding)
         (log : List ActivityLogEntry) (calls : List ChargeCall),
         0 ≤ remN b? → 0 ≤ remN (runCharges lk dev b? log calls).1) := by
  constructor
  · exact trackApiUsage_insufficient
  · intro lk dev b? log calls
    induction calls generalizing b? log with
    | nil => intro h; simpa [runCharges] using h
    | cons c cs ih =>
      intro h
      simpa [runCharges] using
        ih _ _ (trackApiUsage_remN lk dev c.endpoint c.success c.ctx b? log h)

/-- Witness for C1 at a concrete binding with balance 3 charged 5 twice. -/
theorem charge_rejects_overdraft_witness :
    (({ ip := none, userAgent := none, now := "t", statusCode := 200,
        errorReason := none, fetchOk := true, updateOk := true,
        logOk := true } : ChargeCtx).fetchOk = true)
    ∧ (({ creditsRemaining := some 3, totalCreditsUsed := some 0,
          lastSeen := none, lastIp := none, lastUserAgent := none,
          lastEndpoint := none, lastCreditUsage := none } :
            DeviceBinding).creditsRemaining.getD 0 < creditCost "community")
    ∧ trackApiUsage "K" "D"
        (some { creditsRemaining := some 3, totalCreditsUsed := some 0,
                lastSeen := none, lastIp := none, lastUserAgent := none,
                lastEndpoint := none, lastCreditUsage := none })
        "community" true
        { ip := none, userAgent := none, now := "t", statusCode := 200,
          errorReason := none, fetchOk := true, updateOk := true, logOk := true }
        [] =
        ({ success := false, creditsRemaining := some 3, creditsUsed := none,
           totalUsed := none,
           failure := some (.insufficientCredits (creditCost "community") 3) },
         some { creditsRemaining := some 3, totalCreditsUsed := some 0,
                lastSeen := none, lastIp := none, lastUserAgent := none,
                lastEndpoint := none, lastCreditUsage := none },
         [])
    ∧ (0 ≤ remN (some { creditsRemaining := some 3, totalCreditsUsed := some 0,
                        lastSeen := none, lastIp := none, lastUserAgent := none,
                        lastEndpoint := none, lastCreditUsage := none }) →
       0 ≤ remN (runCharges "K" "D"
          (some { creditsRemaining := some 3, totalCreditsUsed := some 0,
                  lastSeen := none, lastIp := none, lastUserAgent := none,
                  lastEndpoint := none, lastCreditUsage := none })
          []
          [{ endpoint := "community", success := true,
             ctx := { ip := none, userAgent := none, now := "t",
                      statusCode := 200, errorReason := none, fetchOk := true,
                      updateOk := true, logOk := true } },
           { endpoint := "validate", success := true,
             ctx := { ip := none, userAgent := none, now := "t",
                      statusCode := 200, errorReason := none, fetchOk := true,
                      updateOk := true, logOk := true } }]).1) :=
  ⟨by decide,
   by decide,
   charge_rejects_overdraft_and_balance_stays_nonneg.1 "K" "D" "community"
     _ _ [] (by decide) (by decide),
   fun h => charge_rejects_overdraft_and_balance_stays_nonneg.2 "K" "D" _ [] _ h⟩

/-- C5: Over one charge `total_credits_used` never decreases, and over any
sequence of charges the final `total_credits_used` equals its initial value
plus the sum of the costs of exactly those charges that were successfully
deducted (calls marked `success = true` whose result reported success). -/
theorem totalCreditsUsed_monotone_and_sums_deductions :
    (∀ (lk dev e : String) (s : Bool) (ctx : ChargeCtx)
       (b? : Option DeviceBinding) (log : List ActivityLogEntry),
       totN b? ≤ totN (trackApiUsage lk dev b? e s ctx log).2.1)
    ∧ (∀ (lk dev : String) (b? : Option DeviceBinding)
         (log : List ActivityLogEntry) (calls : List ChargeCall),
         totN (runCharges lk dev b? log calls).1
           = totN b? + deductedSum calls (runCharges lk dev b? log calls).2.2) := by
  constructor
  · intro lk dev e s ctx b? log
    rw [trackApiUsage_totN]
    have := creditCost_pos e
    split <;> omega
  · intro lk dev b? log calls
    induction calls generalizing b? log with
    | nil => simp [runCharges, deductedSum]
    | cons c cs ih =>
      have hstep := trackApiUsage_totN lk dev c.endpoint c.success c.ctx b? log
      simp only [runCharges, deductedSum]
      rw [ih, hstep]
      ring

/-- C6: Once the device-binding update has been applied (row found, balance
check passed, update succeeded), `trackApiUsage` returns a success result with
the post-deduction balance, and both the result and the stored row are
identical whether the activity-log insert succeeds or fails — a logging
failure is never surfaced and never undoes the deduction. -/
theorem log_failure_never_surfaced_or_rolls_back :
    ∀ (lk dev e : String) (s : Bool) (ctx : ChargeCtx) (b : DeviceBinding)
      (log : List ActivityLogEntry),
      ctx.fetchOk = true → ctx.updateOk = true →
      ¬ (s = true ∧ b.creditsRemaining.getD 0 < creditCost e) →
      (trackApiUsage lk dev (some b) e s { ctx with logOk := true } log).1
        = (trackApiUsage lk dev (some b) e s { ctx with logOk := false } log).1
      ∧ (trackApiUsage lk dev (some b) e s { ctx with logOk := true } log).2.1
        = (trackApiUsage lk dev (some b) e s { ctx with logOk := false } log).2.1
      ∧ (trackApiUsage lk dev (some b) e s { ctx with logOk := true } log).1.success
        = true
      ∧ (trackApiUsage lk dev (some b) e s { ctx with logOk := true } log).1.creditsRemaining
        = some (if s then b.creditsRemaining.getD 0 - creditCost e
                else b.creditsRemaining.getD 0)
      ∧ remN (trackApiUsage lk dev (some b) e s { ctx with logOk := true } log).2.1
        = (if s then b.creditsRemaining.getD 0 - creditCost e
           else b.creditsRemaining.getD 0) := by
  intro lk dev e s ctx b log hf hu hpass
  obtain ⟨ip, ua, now, sc, er, fo, uo, lo⟩ := ctx
  simp only at hf hu
  subst hf; subst hu
  cases s with
  | false => simp [trackApiUsage, remN]
  | true =>
    have hge : ¬ b.creditsRemaining.getD 0 < creditCost e := by
      intro hlt; exact hpass ⟨rfl, hlt⟩
    simp [trackApiUsage, remN, hge]

/-- Witness for C6 at a binding with balance 5 charged cost 5. -/
theorem log_failure_never_surfaced_witness :
    (({ ip := none, userAgent := none, now := "t", statusCode := 200,
        errorReason := none, fetchOk := true, updateOk := true,
        logOk := true } : ChargeCtx).fetchOk = true)
    ∧ (({ ip := none, userAgent := none, now := "t", statusCode := 200,
          errorReason := none, fetchOk := true, updateOk := true,
          logOk := true } : ChargeCtx).updateOk = true)
    ∧ ¬ (true = true ∧
         (({ creditsRemaining := some 5, totalCreditsUsed := none,
             lastSeen := none, lastIp := none, lastUserAgent := none,
             lastEndpoint := none, lastCreditUsage := none } :
               DeviceBinding).creditsRemaining.getD 0 < creditCost "community"))
    ∧ (trackApiUsage "K" "D"
        (some { creditsRemaining := some 5, totalCreditsUsed := none,
                lastSeen := none, lastIp := none, lastUserAgent := none,
                lastEndpoint := none, lastCreditUsage := none })
        "community" true
        { ({ ip := none, userAgent := none, now := "t", statusCode := 200,
             errorReason := none, fetchOk := true, updateOk := true,
             logOk := true } : ChargeCtx) with logOk := true } []).1.success = true :=
  ⟨by decide, by decide, by decide,
   (log_failure_never_surfaced_or_rolls_back "K" "D" "community" true
      { ip := none, userAgent := none, now := "t", statusCode := 200,
        errorReason := none, fetchOk := true, updateOk := true, logOk := true }
      { creditsRemaining := some 5, totalCreditsUsed := none,
        lastSeen := none, lastIp := none, lastUserAgent := none,
        lastEndpoint := none, lastCreditUsage := none }
      [] (by decide) (by decide) (by decide)).2.2.1⟩

/-- C10: For an existing binding, `refillCredits` with a non-negative amount
sets the new balance to the current balance plus the amount, with a negative
amount sets it to the absolute value of the amount, and the result reports the
previous and new balances (the store row is updated accordingly). -/
theorem refillCredits_adds_or_sets_by_sign :
    ∀ (b : DeviceBinding) (amount : Int),
      (refillCredits (some b) amount true).1.success = true
      ∧ (refillCredits (some b) amount true).1.previousBalance
          = some (b.creditsRemaining.getD 0)
      ∧ (0 < amount →
          (refillCredits (some b) amount true).1.newBalance
            = some (b.creditsRemaining.getD 0 + amount))
      ∧ (amount < 0 →
          (refillCredits (some b) amount true).1.newBalance = some |amount|)
      ∧ (refillCredits (some b) amount true).2
          = some { b with creditsRemaining := some (if amount < 0 then |amount| else b.creditsRemaining.getD 0 + amount) } := by
  intro b amount
  by_cases h : amount < 0
  · simp [refillCredits, h]
    omega
  · simp [refillCredits, h]

/-- Witness for C10: balance 10, refill 5 gives 15; refill -7 sets 7. -/
theorem refillCredits_adds_or_sets_witness :
    ((0 : Int) < 5
     ∧ (refillCredits
         (some { creditsRemaining := some 10, totalCreditsUsed := none,
                 lastSeen := none, lastIp := none, lastUserAgent := none,
                 lastEndpoint := none, lastCreditUsage := none }) 5 true).1.newBalance
        = some ((({ creditsRemaining := some 10, totalCreditsUsed := none,
                    lastSeen := none, lastIp := none, lastUserAgent := none,
                    lastEndpoint := none, lastCreditUsage := none } :
                      DeviceBinding).creditsRemaining.getD 0) + 5))
    ∧ ((-7 : Int) < 0
       ∧ (refillCredits
           (some { creditsRemaining := some 10, totalCreditsUsed := none,
                   lastSeen := none, lastIp := none, lastUserAgent := none,
                   lastEndpoint := none, lastCreditUsage := none }) (-7) true).1.newBalance
          = some |(-7 : Int)|) :=
  ⟨⟨by decide,
    (refillCredits_adds_or_sets_by_sign
      { creditsRemaining := some 10, totalCreditsUsed := none,
        lastSeen := none, lastIp := none, lastUserAgent := none,
        lastEndpoint := none, lastCreditUsage := none } 5).2.2.1 (by decide)⟩,
   ⟨by decide,
    (refillCredits_adds_or_sets_by_sign
      { creditsRemaining := some 10, totalCreditsUsed := none,
        lastSeen := none, lastIp := none, lastUserAgent := none,
        lastEndpoint := none, lastCreditUsage := none } (-7)).2.2.2.1 (by decide)⟩⟩

/-- Lookup skips a prefix in which the key does not occur. -/
theorem lookup_append_of_none {l l' : List (String × String)} {k : String}
    (h : l.lookup k = none) : (l ++ l').lookup k = l'.lookup k := by
  induction l with
  | nil => simp
  | cons p t ih =>
    obtain ⟨a, v⟩ := p
    cases hba : (k == a) with
    | true =>
      rw [List.lookup, hba] at h
      exact absurd h (by simp)
    | false =>
      rw [List.cons_append, List.lookup, hba]
      rw [List.lookup, hba] at h
      exact ih h

/-- With all guards passing, the first validate variant reduces to the shared
device-binding step. -/
theorem validate1_reduces (env : Env1) (k d : String)
    (bindings : List (String × String)) (fe ie : Bool) (secret : String)
    (now : Nat) (hkill : env.masterKillSwitch = false) (hk : k ≠ "")
    (hd : d ≠ "") (hrev : env.revokedKeys.contains k = false)
    (hallow : env.validLicenseKeys.contains k = true) :
    validate1 env "GET" (some k) (some d) bindings fe ie secret now
      = bindingStep k d bindings fe ie secret now none := by
  have h1 : ¬ (k ∈ env.revokedKeys) := by simpa using hrev
  have h2 : k ∈ env.validLicenseKeys := by simpa using hallow
  simp [validate1, strFalsy, hkill, hk, hd, h1, h2]

/-- With all guards passing and a present, unrevoked table row, the second
validate variant reduces to the shared device-binding step. -/
theorem validate2_reduces (env : Env2) (k d : String)
    (bindings : List (String × String)) (fe ie : Bool) (notif : Option String)
    (secret : String) (now : Nat) (row : LicenseRow)
    (hkill : env.masterKillSwitch = false) (hk : k ≠ "") (hd : d ≠ "")
    (hrow : env.license_keys.find? (fun r => r.key = k) = some row)
    (hnotrev : row.revoked = false) :
    validate2 env "GET" (some k) (some d) bindings false fe ie notif secret now
      = bindingStep k d bindings fe ie secret now notif := by
  simp [validate2, strFalsy, hkill, hk, hd, hrow, hnotrev]

/-- Scenario of the shared binding step: bind on first use, reject a second
device without rebinding, accept the first device again. -/
theorem bindingStep_scenario (k d1 d2 : String)
    (bindings : List (String × String)) (secret : String) (t1 t2 t3 : Nat)
    (n1 n2 n3 : Option String)
    (hunbound : bindings.lookup k = none) (hne : d2 ≠ d1) :
    (bindingStep k d1 bindings false false secret t1 n1).1.valid = true
    ∧ (bindingStep k d1 bindings false false secret t1 n1).1.reason = some .VALID
    ∧ (bindingStep k d1 bindings false false secret t1 n1).1.newDevice = true
    ∧ (bindingStep k d1 bindings false false secret t1 n1).2
        = bindings ++ [(k, d1)]
    ∧ (bindingStep k d1 bindings false false secret t1 n1).2.lookup k = some d1
    ∧ (bindingStep k d2 (bindings ++ [(k, d1)]) false false secret t2 n2).1.valid
        = false
    ∧ (bindingStep k d2 (bindings ++ [(k, d1)]) false false secret t2 n2).1.reason
        = some .DEVICE_MISMATCH
    ∧ (bindingStep k d2 (bindings ++ [(k, d1)]) false false secret t2 n2).2
        = bindings ++ [(k, d1)]
    ∧ (bindingStep k d1 (bindings ++ [(k, d1)]) false false secret t3 n3).1.valid
        = true
    ∧ (bindingStep k d1 (bindings ++ [(k, d1)]) false false secret t3 n3).1.reason
        = some .VALID
    ∧ (bindingStep k d1 (bindings ++ [(k, d1)]) false false secret t3 n3).1.newDevice
        = false
    ∧ (bindingStep k d1 (bindings ++ [(k, d1)]) false false secret t3 n3).2
        = bindings ++ [(k, d1)] := by
  have hl : (bindings ++ [(k, d1)]).lookup k = some d1 := by
    rw [lookup_append_of_none hunbound]
    simp [List.lookup]
  have hne' : ¬ (d1 = d2) := fun h => hne h.symm
  refine ⟨?_, ?_, ?_, ?_, ?_, ?_, ?_, ?_, ?_, ?_, ?_, ?_⟩ <;>
    simp [bindingStep, hunbound, hl, hne']

/-- C2: For a license key on the allowlist (resp. present and unrevoked in the
license table), not revoked, with no existing device binding, the first
`validate(key, d1)` binds `d1` and returns valid with the `newDevice` flag; a
later call with a different device returns DEVICE_MISMATCH without altering
the binding; a later call with the bound device returns valid, reason VALID,
without the `newDevice` flag. Both validate variants are covered. -/
theorem validate_binds_once_then_enforces_device
    (env1 : Env1) (env2 : Env2) (row : LicenseRow) (k d1 d2 : String)
    (bindings : List (String × String)) (notif : Option String)
    (secret : String) (t1 t2 t3 : Nat)
    (hk : k ≠ "") (hd1 : d1 ≠ "") (hd2 : d2 ≠ "") (hne : d2 ≠ d1)
    (hkill1 : env1.masterKillSwitch = false)
    (hrev : env1.revokedKeys.contains k = false)
    (hallow : env1.validLicenseKeys.contains k = true)
    (hkill2 : env2.masterKillSwitch = false)
    (hrow : env2.license_keys.find? (fun r => r.key = k) = some row)
    (hnotrev : row.revoked = false)
    (hunbound : bindings.lookup k = none) :
    ((validate1 env1 "GET" (some k) (some d1) bindings false false secret t1).1.valid = true
     ∧ (validate1 env1 "GET" (some k) (some d1) bindings false false secret t1).1.newDevice = true
     ∧ (validate1 env1 "GET" (some k) (some d1) bindings false false secret t1).2.lookup k = some d1
     ∧ (validate1 env1 "GET" (some k) (some d2)
          (validate1 env1 "GET" (some k) (some d1) bindings false false secret t1).2
          false false secret t2).1.valid = false
     ∧ (validate1 env1 "GET" (some k) (some d2)
          (validate1 env1 "GET" (some k) (some d1) bindings false false secret t1).2
          false false secret t2).1.reason = some .DEVICE_MISMATCH
     ∧ (validate1 env1 "GET" (some k) (some d2)
          (validate1 env1 "GET" (some k) (some d1) bindings false false secret t1).2
          false false secret t2).2
        = (validate1 env1 "GET" (some k) (some d1) bindings false false secret t1).2
     ∧ (validate1 env1 "GET" (some k) (some d1)
          (validate1 env1 "GET" (some k) (some d1) bindings false false secret t1).2
          false false secret t3).1.valid = true
     ∧ (validate1 env1 "GET" (some k) (some d1)
          (validate1 env1 "GET" (some k) (some d1) bindings false false secret t1).2
          false false secret t3).1.reason = some .VALID
     ∧ (validate1 env1 "GET" (some k) (some d1)
          (validate1 env1 "GET" (some k) (some d1) bindings false false secret t1).2
          false false secret t3).1.newDevice = false)
    ∧ ((validate2 env2 "GET" (some k) (some d1) bindings false false false notif secret t1).1.valid = true
       ∧ (validate2 env2 "GET" (some k) (some d1) bindings false false false notif secret t1).1.newDevice = true
       ∧ (validate2 env2 "GET" (some k) (some d1) bindings false false false notif secret t1).2.lookup k = some d1
       ∧ (validate2 env2 "GET" (some k) (some d2)
            (validate2 env2 "GET" (some k) (some d1) bindings false false false notif secret t1).2
            false false false notif secret t2).1.valid = false
       ∧ (validate2 env2 "GET" (some k) (some d2)
            (validate2 env2 "GET" (some k) (some d1) bindings false false false notif secret t1).2
            false false false notif secret t2).1.reason = some .DEVICE_MISMATCH
       ∧ (validate2 env2 "GET" (some k) (some d2)
            (validate2 env2 "GET" (some k) (some d1) bindings false false false notif secret t1).2
            false false false notif secret t2).2
          = (validate2 env2 "GET" (some k) (some d1) bindings false false false notif secret t1).2
       ∧ (validate2 env2 "GET" (some k) (some d1)
            (validate2 env2 "GET" (some k) (some d1) bindings false false false notif secret t1).2
            false false false notif secret t3).1.valid = true
       ∧ (validate2 env2 "GET" (some k) (some d1)
            (validate2 env2 "GET" (some k) (some d1) bindings false false false notif secret t1).2
            false false false notif secret t3).1.reason = some .VALID
       ∧ (validate2 env2 "GET" (some k) (some d1)
            (validate2 env2 "GET" (some k) (some d1) bindings false false false notif secret t1).2
            false false false notif secret t3).1.newDevice = false) := by
  obtain ⟨s1, s2, s3, s4, s5, s6, s7, s8, s9, s10, s11, s12⟩ :=
    bindingStep_scenario k d1 d2 bindings secret t1 t2 t3 none none none
      hunbound hne
  obtain ⟨u1, u2, u3, u4, u5, u6, u7, u8, u9, u10, u11, u12⟩ :=
    bindingStep_scenario k d1 d2 bindings secret t1 t2 t3 notif notif notif
      hunbound hne
  constructor
  · rw [validate1_reduces env1 k d1 bindings false false secret t1 hkill1 hk hd1 hrev hallow]
    rw [s4]
    rw [validate1_reduces env1 k d2 (bindings ++ [(k, d1)]) false false secret t2 hkill1 hk hd2 hrev hallow]
    rw [validate1_reduces env1 k d1 (bindings ++ [(k, d1)]) false false secret t3 hkill1 hk hd1 hrev hallow]
    rw [s4] at s5
    exact ⟨s1, s3, s5, s6, s7, s8, s9, s10, s11⟩
  · rw [validate2_reduces env2 k d1 bindings false false notif secret t1 row hkill2 hk hd1 hrow hnotrev]
    rw [u4]
    rw [validate2_reduces env2 k d2 (bindings ++ [(k, d1)]) false false notif secret t2 row hkill2 hk hd2 hrow hnotrev]
    rw [validate2_reduces env2 k d1 (bindings ++ [(k, d1)]) false false notif secret t3 row hkill2 hk hd1 hrow hnotrev]
    rw [u4] at u5
    exact ⟨u1, u3, u5, u6, u7, u8, u9, u10, u11⟩

/-- Witness for C2: key K1, devices D1 and D2, empty binding table. -/
theorem validate_binds_once_witness :
    ([] : List (String × String)).lookup "K1" = none
    ∧ (validate1 { masterKillSwitch := false, revokedKeys := [],
                   validLicenseKeys := ["K1"] }
        "GET" (some "K1") (some "D1") [] false false "s" 0).1.newDevice = true
    ∧ (validate2 { masterKillSwitch := false,
                   license_keys := [{ key := "K1", revoked := false }] }
        "GET" (some "K1") (some "D1") [] false false false none "s" 0).1.newDevice
        = true := by
  have h := validate_binds_once_then_enforces_device
    { masterKillSwitch := false, revokedKeys := [], validLicenseKeys := ["K1"] }
    { masterKillSwitch := false, license_keys := [{ key := "K1", revoked := false }] }
    { key := "K1", revoked := false } "K1" "D1" "D2" [] none "s" 0 1 2
    (by decide) (by decide) (by decide) (by decide) (by decide) (by decide)
    (by decide) (by decide) (by decide) (by decide) (by decide)
  exact ⟨by decide, h.1.2.1, h.2.2.1⟩

/-- Counterexample to C4: in the env-allowlist validate variant, the key "K1"
is marked revoked and absent from the (empty) allowlist, yet the handler
answers REVOKED, not INVALID — the revocation check runs first there. -/
theorem validate_order_counterexample :
    (validate1 { masterKillSwitch := false, revokedKeys := ["K1"],
                 validLicenseKeys := [] }
      "GET" (some "K1") (some "D1") [] false false "s" 0).1.reason
      = some Reason.REVOKED
    ∧ (validate1 { masterKillSwitch := false, revokedKeys := ["K1"],
                   validLicenseKeys := [] }
        "GET" (some "K1") (some "D1") [] false false "s" 0).1.reason
        ≠ some Reason.INVALID := by
  constructor
  · decide
  · decide

/-- C4 as amended: the decision order differs between the two validate
variants. In the env-allowlist variant the revocation check precedes the
allowlist check, so any revoked key — also one absent from the allowlist —
gets REVOKED; in the table-backed variant the row-existence check precedes
the revocation check, so any key without a table row gets INVALID. -/
theorem validate_order_per_variant :
    (∀ (env : Env1) (k d : String) (bindings : List (String × String))
       (fe ie : Bool) (secret : String) (now : Nat),
       env.masterKillSwitch = false → k ≠ "" → d ≠ "" →
       env.revokedKeys.contains k = true →
       (validate1 env "GET" (some k) (some d) bindings fe ie secret now).1.reason
         = some Reason.REVOKED)
    ∧ (∀ (env : Env2) (k d : String) (bindings : List (String × String))
         (fe ie : Bool) (notif : Option String) (secret : String) (now : Nat),
         env.masterKillSwitch = false → k ≠ "" → d ≠ "" →
         env.license_keys.find? (fun r => r.key = k) = none →
         (validate2 env "GET" (some k) (some d) bindings false fe ie notif secret now).1.reason
           = some Reason.INVALID) := by
  constructor
  · intro env k d bindings fe ie secret now hkill hk hd hrev
    have h1 : k ∈ env.revokedKeys := by simpa using hrev
    simp [validate1, strFalsy, hkill, hk, hd, h1]
  · intro env k d bindings fe ie notif secret now hkill hk hd habsent
    simp [validate2, strFalsy, hkill, hk, hd, habsent]

/-- Witness for the amended C4 at concrete environments. -/
theorem validate_order_per_variant_witness :
    (validate1 { masterKillSwitch := false, revokedKeys := ["K2"],
                 validLicenseKeys := ["K2"] }
      "GET" (some "K2") (some "D1") [] false false "s" 0).1.reason
      = some Reason.REVOKED
    ∧ (validate2 { masterKillSwitch := false, license_keys := [] }
        "GET" (some "K2") (some "D1") [] false false false none "s" 0).1.reason
        = some Reason.INVALID := by
  constructor
  · exact validate_order_per_variant.1
      { masterKillSwitch := false, revokedKeys := ["K2"], validLicenseKeys := ["K2"] }
      "K2" "D1" [] false false "s" 0 (by decide) (by decide) (by decide) (by decide)
  · exact validate_order_per_variant.2
      { masterKillSwitch := false, license_keys := [] }
      "K2" "D1" [] false false none "s" 0 (by decide) (by decide) (by decide)
      (by decide)

/-- C3 divergence: a session token minted by `generateToken` carries its
device identifier in the `deviceId` payload field, but the config-share
authentication reads the `device_id` field, which the mint never sets; so any
such token presented within its 5-minute validity window with the correct
signing secret is rejected with 401 and no owner identity is ever derived. -/
theorem config_share_rejects_every_minted_token :
    ∀ (licenseKey deviceId secret : String) (mintTime now : Nat),
      now < mintTime + 300 →
      configShareAuth (some (generateToken licenseKey deviceId secret mintTime))
        secret now = .error 401 := by
  intro licenseKey deviceId secret mintTime now hwindow
  simp [configShareAuth, generateToken, jwtVerify, hwindow]

/-- Witness for C3: token minted at time 0 for device D1, presented at 10. -/
theorem config_share_rejects_minted_token_witness :
    (10 : Nat) < 0 + 300
    ∧ configShareAuth (some (generateToken "LICENSE-KEY-1" "D1" "s" 0)) "s" 10
        = .error 401 :=
  ⟨by decide,
   config_share_rejects_every_minted_token "LICENSE-KEY-1" "D1" "s" 0 10
     (by decide)⟩

/-- C7 divergence: when the community proxy rejects a request because the
balance is below the endpoint's cost, it answers 402 with an
error/message/creditsNeeded body — but `creditsNeeded` is hardcoded to 20,
while the static cost table prices the community endpoint at 5. -/
theorem community_402_hardcodes_creditsNeeded :
    ∀ (tok : Jwt) (secret : String) (now : Nat) (b : DeviceBinding)
      (ctx : ChargeCtx) (log : List ActivityLogEntry),
      (verifyToken tok secret now).isSome = true →
      ctx.fetchOk = true →
      b.creditsRemaining.getD 0 < creditCost "community" →
      (communityHandler "GET" (some tok) secret now (some b) ctx log).1
        = .insufficient 402
            { error := "Insufficient credits"
              message := some (.insufficientCredits (creditCost "community")
                                (b.creditsRemaining.getD 0))
              creditsNeeded := 20 }
      ∧ creditCost "community" = 5 := by
  intro tok secret now b ctx log hver hf hlt
  obtain ⟨payload, hpay⟩ := Option.isSome_iff_exists.mp hver
  have hver405 : ¬ ("GET" : String) = "OPTIONS" := by decide
  have htrack := trackApiUsage_insufficient
    (payload.licenseKey.getD "") (payload.deviceId.getD "") "community" b ctx
    log hf hlt
  constructor
  · simp only [communityHandler, hpay, htrack]
    rw [if_neg hver405]
    simp
  · decide

/-- Witness for C7: a valid token over a binding holding 3 credits. -/
theorem community_402_hardcodes_witness :
    ((verifyToken
        { payload := { licenseKey := some "LICENSE-", deviceId := some "D1",
                       device_id := none, purpose := some "honed-license",
                       iat := 0, exp := 300 },
          secret := "s" } "s" 10).isSome = true)
    ∧ (({ ip := none, userAgent := none, now := "t", statusCode := 200,
          errorReason := none, fetchOk := true, updateOk := true,
          logOk := true } : ChargeCtx).fetchOk = true)
    ∧ (({ creditsRemaining := some 3, totalCreditsUsed := none,
          lastSeen := none, lastIp := none, lastUserAgent := none,
          lastEndpoint := none, lastCreditUsage := none } :
            DeviceBinding).creditsRemaining.getD 0 < creditCost "community")
    ∧ (communityHandler "GET"
        (some { payload := { licenseKey := some "LICENSE-", deviceId := some "D1",
                             device_id := none, purpose := some "honed-license",
                             iat := 0, exp := 300 },
                secret := "s" }) "s" 10
        (some { creditsRemaining := some 3, totalCreditsUsed := none,
                lastSeen := none, lastIp := none, lastUserAgent := none,
                lastEndpoint := none, lastCreditUsage := none })
        { ip := none, userAgent := none, now := "t", statusCode := 200,
          errorReason := none, fetchOk := true, updateOk := true, logOk := true }
        []).1
      = .insufficient 402
          { error := "Insufficient credits"
            message := some (.insufficientCredits (creditCost "community") 3)
            creditsNeeded := 20 } :=
  ⟨by decide, by decide, by decide,
   (community_402_hardcodes_creditsNeeded
     { payload := { licenseKey := some "LICENSE-", deviceId := some "D1",
                    device_id := none, purpose := some "honed-license",
                    iat := 0, exp := 300 },
       secret := "s" } "s" 10
     { creditsRemaining := some 3, totalCreditsUsed := none,
       lastSeen := none, lastIp := none, lastUserAgent := none,
       lastEndpoint := none, lastCreditUsage := none }
     { ip := none, userAgent := none, now := "t", statusCode := 200,
       errorReason := none, fetchOk := true, updateOk := true, logOk := true }
     [] (by decide) (by decide) (by decide)).1⟩

/-- If the first element satisfying `p` also satisfies the stronger predicate
`q` (and `q` implies `p` everywhere), it is also the first element satisfying
`q`. -/
theorem find?_of_stronger {α : Type} (p q : α → Bool) (l : List α) (x : α)
    (h : l.find? p = some x) (himp : ∀ a, q a = true → p a = true)
    (hx : q x = true) : l.find? q = some x := by
  induction l with
  | nil => simp at h
  | cons a t ih =>
    cases hp : p a with
    | true =>
      rw [List.find?_cons_of_pos _ hp] at h
      obtain rfl : a = x := by simpa using h
      rw [List.find?_cons_of_pos _ hx]
    | false =>
      have hqa : q a = false := by
        cases hqa : q a with
        | false => rfl
        | true => rw [himp a hqa] at hp; cases hp
      rw [List.find?_cons_of_neg _ (by simp [hp])] at h
      rw [List.find?_cons_of_neg _ (by simp [hqa])]
      exact ih h

/-- C8: For an existing shared config, a requester who is not its owner can
read it — preview or copy — exactly when `is_public` is set (and gets 403
otherwise), while the owner can always preview, copy, delete it, and set its
visibility to either value, regardless of `is_public`. -/
theorem config_owner_and_public_access_rules :
    ∀ (store : List SharedConfig) (requester : String) (cid : Nat)
      (cfg : SharedConfig) (now : String) (b : Bool),
      store.find? (fun c => c.id = cid) = some cfg →
      ((cfg.device_id ≠ requester →
         (((handlePreview requester (some cid) store true true).1.status = 200)
            ↔ cfg.is_public = true)
         ∧ (((handleCopy requester (some cid) store true true now).1.status = 200)
            ↔ cfg.is_public = true)
         ∧ (cfg.is_public = false →
             (handlePreview requester (some cid) store true true).1.status = 403
             ∧ (handleCopy requester (some cid) store true true now).1.status = 403))
       ∧ (cfg.device_id = requester →
           (handlePreview requester (some cid) store true true).1.status = 200
           ∧ (handleCopy requester (some cid) store true true now).1.status = 200
           ∧ (handleDelete requester (some cid) store true).1.status = 200
           ∧ (handleVisibility requester
               { configId := some cid, isPublic := some b } store true).1.status
              = 200)) := by
  intro store requester cid cfg now b hfind
  have hid : cfg.id = cid := by simpa using List.find?_some hfind
  constructor
  · intro hne
    refine ⟨?_, ?_, ?_⟩
    · cases hpub : cfg.is_public with
      | false => simp [handlePreview, hfind, hne, hpub]
      | true => simp [handlePreview, hfind, hne, hpub]
    · cases hpub : cfg.is_public with
      | false => simp [handleCopy, hfind, hne, hpub]
      | true => simp [handleCopy, hfind, hne, hpub]
    · intro hpub
      constructor
      · simp [handlePreview, hfind, hne, hpub]
      · simp [handleCopy, hfind, hne, hpub]
  · intro howner
    have hconj : store.find? (fun c => c.id = cid && c.device_id = requester)
        = some cfg := by
      refine find?_of_stronger _ _ store cfg hfind ?_ ?_
      · intro a ha
        simp only [Bool.and_eq_true, decide_eq_true_eq] at ha
        simp [ha.1]
      · simp [hid, howner]
    refine ⟨?_, ?_, ?_, ?_⟩
    · simp [handlePreview, hfind, howner]
    · simp [handleCopy, hfind, howner]
    · simp [handleDelete, hconj]
    · simp [handleVisibility, hconj]

/-- Witness for C8: a private config owned by OWNER, requested by OTHER and
by OWNER. -/
theorem config_owner_and_public_access_witness :
    ([{ id := 1, device_id := "OWNER", display_name := none,
        description := none, is_public := false,
        config_data := { settings := none, stringifyLength := 10 },
        admins_count := 0, tweets_count := 0, blacklist_count := 0,
        config_size_bytes := 10, view_count := none, copy_count := none,
        last_copied_at := none }] : List SharedConfig).find?
        (fun c => c.id = 1)
      = some { id := 1, device_id := "OWNER", display_name := none,
               description := none, is_public := false,
               config_data := { settings := none, stringifyLength := 10 },
               admins_count := 0, tweets_count := 0, blacklist_count := 0,
               config_size_bytes := 10, view_count := none, copy_count := none,
               last_copied_at := none }
    ∧ (handlePreview "OTHER" (some 1)
        [{ id := 1, device_id := "OWNER", display_name := none,
           description := none, is_public := false,
           config_data := { settings := none, stringifyLength := 10 },
           admins_count := 0, tweets_count := 0, blacklist_count := 0,
           config_size_bytes := 10, view_count := none, copy_count := none,
           last_copied_at := none }] true true).1.status = 403
    ∧ (handleDelete "OWNER" (some 1)
        [{ id := 1, device_id := "OWNER", display_name := none,
           description := none, is_public := false,
           config_data := { settings := none, stringifyLength := 10 },
           admins_count := 0, tweets_count := 0, blacklist_count := 0,
           config_size_bytes := 10, view_count := none, copy_count := none,
           last_copied_at := none }] true).1.status = 200 := by
  have hother := config_owner_and_public_access_rules
    [{ id := 1, device_id := "OWNER", display_name := none,
       description := none, is_public := false,
       config_data := { settings := none, stringifyLength := 10 },
       admins_count := 0, tweets_count := 0, blacklist_count := 0,
       config_size_bytes := 10, view_count := none, copy_count := none,
       last_copied_at := none }] "OTHER" 1
    { id := 1, device_id := "OWNER", display_name := none,
      description := none, is_public := false,
      config_data := { settings := none, stringifyLength := 10 },
      admins_count := 0, tweets_count := 0, blacklist_count := 0,
      config_size_bytes := 10, view_count := none, copy_count := none,
      last_copied_at := none } "t" true (by decide)
  have howner := config_owner_and_public_access_rules
    [{ id := 1, device_id := "OWNER", display_name := none,
       description := none, is_public := false,
       config_data := { settings := none, stringifyLength := 10 },
       admins_count := 0, tweets_count := 0, blacklist_count := 0,
       config_size_bytes := 10, view_count := none, copy_count := none,
       last_copied_at := none }] "OWNER" 1
    { id := 1, device_id := "OWNER", display_name := none,
      description := none, is_public := false,
      config_data := { settings := none, stringifyLength := 10 },
      admins_count := 0, tweets_count := 0, blacklist_count := 0,
      config_size_bytes := 10, view_count := none, copy_count := none,
      last_copied_at := none } "t" true (by decide)
  exact ⟨by decide,
         ((hother.1 (by decide)).2.2 (by decide)).1,
         (howner.2 (by decide)).2.2.1⟩

/-- C9: An upload whose configData serializes to more than 5 MiB is rejected
with 400 and the shared-config store is left unchanged — the size check runs
strictly before the insert, for every insert outcome. -/
theorem upload_oversize_rejected_before_any_write :
    ∀ (deviceId : String) (body : UploadBody) (store : List SharedConfig)
      (insertOk : Bool) (newId : Nat) (cd : ConfigData),
      body.configData = some cd →
      5 * 1024 * 1024 < cd.stringifyLength →
      handleUpload deviceId body store insertOk newId
        = ({ status := 400, configId := none }, store) := by
  intro deviceId body store insertOk newId cd hcd hsize
  have hgt : cd.stringifyLength > 5 * 1024 * 1024 := hsize
  simp [handleUpload, hcd, hgt]

/-- Witness for C9: a 6 MiB payload. -/
theorem upload_oversize_rejected_witness :
    (({ displayName := none, description := none, isPublic := some true,
        configData := some { settings := none,
                             stringifyLength := 6 * 1024 * 1024 } } :
          UploadBody).configData
      = some { settings := none, stringifyLength := 6 * 1024 * 1024 })
    ∧ 5 * 1024 * 1024 < 6 * 1024 * 1024
    ∧ handleUpload "D1"
        { displayName := none, description := none, isPublic := some true,
          configData := some { settings := none,
                               stringifyLength := 6 * 1024 * 1024 } }
        [] true 7
        = ({ status := 400, configId := none }, []) :=
  ⟨rfl, by norm_num,
   upload_oversize_rejected_before_any_write "D1"
     { displayName := none, description := none, isPublic := some true,
       configData := some { settings := none,
                            stringifyLength := 6 * 1024 * 1024 } }
     [] true 7 { settings := none, stringifyLength := 6 * 1024 * 1024 }
     rfl (by norm_num)⟩
